import Mathlib

/-!
Verification development for the BGP path-attribute model and decision
process of `route/bgp_path.go` (package `route` of bio-rd).

The Go code is embedded shallowly: pointer-valued optional containers
(`*[]uint32`, `*[]LargeCommunity`, ...) become `Option` values, a nil
dereference (Go panic) becomes a `none` result, machine integers become
`Nat` (only compared, never overflowed) except where wrapping matters
(`uint16` wire lengths, taken modulo 2^16).  Aliasing claims about
`Copy` are settled against a second, heap-passing embedding at the end
of the file.
-/

/-- Modelled from the spec: the IP address value type of the `bnet`
package (not under `src/`): an immutable 128-bit value stored as two
64-bit halves plus an IPv4/IPv6 version tag. -/
structure IP where
  v6 : Bool
  higher : Nat
  lower : Nat
deriving DecidableEq

/-- Modelled from the spec: `bnet.IP.Compare`, the total order on IP
address values, bit-wise on the 128-bit value with the version tag as
the distinguishing factor for mixed comparisons; returns -1, 0 or 1. -/
def IP.Compare (a b : IP) : Int :=
  if a.higher > b.higher then 1
  else if a.higher < b.higher then -1
  else if a.lower > b.lower then 1
  else if a.lower < b.lower then -1
  else if a.v6 = b.v6 then 0
  else if a.v6 then 1
  else -1

/-- Modelled from the spec: segment type of an AS-path segment,
`types.ASSequence` / `types.ASSet`. -/
inductive SegmentType where
  | sequence : SegmentType
  | set : SegmentType
deriving DecidableEq

/-- Modelled from the spec: `types.ASPathSegment`, a segment type plus
an ordered sequence of 32-bit AS numbers. -/
structure ASPathSegment where
  segType : SegmentType
  asns : List Nat
deriving DecidableEq

/-- Modelled from the spec: `types.ASPath`, an ordered sequence of
AS-path segments. -/
abbrev ASPath := List ASPathSegment

/-- Modelled from the spec: `types.MaxASNsSegment`, the maximum
permitted number of AS numbers in one segment, a wire-format constant
(the segment length field is one byte, so 255). -/
def MaxASNsSegment : Nat := 255

/-- Modelled from the spec: `types.ASPath.Length`, the effective
AS-path length metric: a SET segment counts 1 regardless of member
count, a SEQUENCE counts its AS-number count. -/
def ASPath.effLength (p : ASPath) : Nat :=
  p.foldl (fun acc seg =>
    match seg.segType with
    | SegmentType.set => acc + 1
    | SegmentType.sequence => acc + seg.asns.length) 0

/-- Modelled from the spec: `types.LargeCommunity`, a 96-bit structured
value (global administrator plus two local data parts). -/
structure LargeCommunity where
  globalAdministrator : Nat
  dataPart1 : Nat
  dataPart2 : Nat
deriving DecidableEq

/-- Modelled from the spec: `types.UnknownPathAttribute`, a raw
attribute record preserved for transparency; it contributes its own
preserved wire length to `Length`. -/
structure UnknownPathAttribute where
  attrTypeCode : Nat
  attrValue : List Nat
  wireLength : Nat
deriving DecidableEq

/-- `BGPPathA` of `route/bgp_path.go`: the cachable (shared, interned)
BGP path attributes.  The Go `NextHop` and `Source` fields are
pointers; the embedding models them as values (a nil next-hop or
source is outside the model, as nothing under `src/` ever checks
them for nil). -/
structure BGPPathA where
  nextHop : IP
  source : IP
  localPref : Nat
  med : Nat
  bgpIdentifier : Nat
  originatorID : Nat
  aggregator : Option (Nat × IP)
  ebgp : Bool
  atomicAggregate : Bool
  origin : Nat
deriving DecidableEq

/-- `BGPPath` of `route/bgp_path.go`.  The four nilable sequence
pointers (`ClusterList`, `Communities`, `LargeCommunities`,
`UnknownAttributes`) are `Option`s; `none` is Go nil. -/
structure BGPPath where
  bgpPathA : BGPPathA
  asPath : ASPath
  clusterList : Option (List Nat)
  communities : Option (List Nat)
  largeCommunities : Option (List LargeCommunity)
  unknownAttributes : Option (List UnknownPathAttribute)
  pathIdentifier : Nat
  asPathLen : Nat
deriving DecidableEq

/-- Modelled from the spec: `BGPPathA.Dedup` routes the attribute set
through the process-wide deduplication cache, which returns the
canonical instance structurally equal to its argument; at the value
level this is the identity. -/
def BGPPathA.Dedup (a : BGPPathA) : BGPPathA := a

/-- `BGPPath.Dedup` of `route/bgp_path.go`: replaces the attribute set
by its interned instance. -/
def BGPPath.Dedup (b : BGPPath) : BGPPath := { b with bgpPathA := b.bgpPathA.Dedup }

/-- The effective BGP identifier used by `Select` step f: the local
variables `bgpIdentifierB` / `bgpIdentifierC` of the source, i.e. the
originator ID if non-zero (set by a route reflector), else the BGP
identifier. -/
def BGPPathA.effectiveID (a : BGPPathA) : Nat :=
  if a.originatorID ≠ 0 then a.originatorID else a.bgpIdentifier

/-- `BGPPath.Select` of `route/bgp_path.go` (lines 192-290), embedded
statement by statement.  The Go code dereferences the cluster-list
pointers of both paths without a nil check; a nil there is a panic,
modelled as `none`. -/
def BGPPath.Select (b c : BGPPath) : Option Int :=
  if c.bgpPathA.localPref < b.bgpPathA.localPref then some 1
  else if c.bgpPathA.localPref > b.bgpPathA.localPref then some (-1)
  -- 9.1.2.2. Breaking Ties (Phase 2), a)
  else if c.asPathLen > b.asPathLen then some 1
  else if c.asPathLen < b.asPathLen then some (-1)
  -- b)
  else if c.bgpPathA.origin > b.bgpPathA.origin then some 1
  else if c.bgpPathA.origin < b.bgpPathA.origin then some (-1)
  -- c)
  else if c.bgpPathA.med > b.bgpPathA.med then some 1
  else if c.bgpPathA.med < b.bgpPathA.med then some (-1)
  -- d)
  else if c.bgpPathA.ebgp && !b.bgpPathA.ebgp then some (-1)
  else if !c.bgpPathA.ebgp && b.bgpPathA.ebgp then some 1
  -- f) + RFC4456 9. (Route Reflection)
  else if c.bgpPathA.effectiveID < b.bgpPathA.effectiveID then some 1
  else if c.bgpPathA.effectiveID > b.bgpPathA.effectiveID then some (-1)
  else
    match c.clusterList, b.clusterList with
    | some lc, some lb =>
      if lc.length < lb.length then some 1
      else if lc.length > lb.length then some (-1)
      -- g)
      else if IP.Compare c.bgpPathA.source b.bgpPathA.source = -1 then some 1
      else if IP.Compare c.bgpPathA.source b.bgpPathA.source = 1 then some (-1)
      else if IP.Compare c.bgpPathA.nextHop b.bgpPathA.nextHop = -1 then some 1
      else if IP.Compare c.bgpPathA.nextHop b.bgpPathA.nextHop = 1 then some (-1)
      else some 0
    | _, _ => none

/-- `BGPPath.Equal` of `route/bgp_path.go`: paths with different path
identifiers are unequal; otherwise equality is `Select` returning 0. -/
def BGPPath.Equal (b c : BGPPath) : Option Bool :=
  if b.pathIdentifier ≠ c.pathIdentifier then some false
  else (b.Select c).map (fun r => r == 0)

/-- `BGPPath.ECMP` of `route/bgp_path.go`: ECMP equality of two
paths. -/
def BGPPath.ECMP (b c : BGPPath) : Bool :=
  b.bgpPathA.localPref == c.bgpPathA.localPref &&
  b.asPathLen == c.asPathLen &&
  b.bgpPathA.med == c.bgpPathA.med &&
  b.bgpPathA.origin == c.bgpPathA.origin

/-- `BGPPath.betterECMP` of `route/bgp_path.go` (lines 292-326),
embedded statement by statement. -/
def BGPPath.betterECMP (b c : BGPPath) : Bool :=
  if c.bgpPathA.localPref < b.bgpPathA.localPref then false
  else if c.bgpPathA.localPref > b.bgpPathA.localPref then true
  else if c.asPathLen > b.asPathLen then false
  else if c.asPathLen < b.asPathLen then true
  else if c.bgpPathA.origin > b.bgpPathA.origin then false
  else if c.bgpPathA.origin < b.bgpPathA.origin then true
  else if c.bgpPathA.med > b.bgpPathA.med then false
  else if c.bgpPathA.med < b.bgpPathA.med then true
  else false

/-- `BGPPath.better` of `route/bgp_path.go` (lines 328-342), embedded
statement by statement: note the BGP-identifier and source checks are
reached even when `betterECMP` was decided (false) by a strict
difference, not by a tie. -/
def BGPPath.better (b c : BGPPath) : Bool :=
  if b.betterECMP c then true
  else if c.bgpPathA.bgpIdentifier < b.bgpPathA.bgpIdentifier then true
  else if IP.Compare c.bgpPathA.source b.bgpPathA.source = -1 then true
  else false

/-- `BGPPath.Length` of `route/bgp_path.go` (lines 137-173): the
serialized wire length, a `uint16` (taken modulo 2^16).  The source
computes `clusterListLen` but does not include it in the returned sum;
the embedding reproduces that. -/
def BGPPath.Length (b : BGPPath) : Nat :=
  let asPathLen := b.asPath.foldl (fun acc seg => acc + 1 + 4 * seg.asns.length) 3
  let communitiesLen :=
    match b.communities with
    | some cs => if cs.length ≠ 0 then 3 + cs.length * 4 else 0
    | none => 0
  let largeCommunitiesLen :=
    match b.largeCommunities with
    | some ls => if ls.length ≠ 0 then 3 + ls.length * 12 else 0
    | none => 0
  -- clusterListLen is computed by the source exactly like communitiesLen
  -- but never added to the result below.
  let unknownAttributesLen :=
    match b.unknownAttributes with
    | some us => us.foldl (fun acc u => acc + u.wireLength) 0
    | none => 0
  let originatorID := if b.bgpPathA.originatorID ≠ 0 then 4 else 0
  (communitiesLen + largeCommunitiesLen + 4 * 7 + 4 + originatorID + asPathLen
    + unknownAttributesLen) % 65536

/-- `insertNewASSequence` of `route/bgp_path.go`: prepends an empty
SEQUENCE segment to the AS path. -/
def insertNewASSequence (p : ASPath) : ASPath :=
  { segType := SegmentType.sequence, asns := [] } :: p

/-- The loop body of `BGPPath.Prepend`, iterated `times` times: if the
number of SEGMENTS of the AS path (sic - not the ASN count of the
leading segment) equals `MaxASNsSegment`, a new empty SEQUENCE segment
is inserted first; then the AS number is prepended to the leading
segment's ASN sequence.  The `[]` case is unreachable: the path is made
non-empty before the loop and stays non-empty (Go would panic). -/
def prependLoop (asn : Nat) : Nat → ASPath → ASPath
  | 0, p => p
  | Nat.succ k, p =>
    let p1 := if p.length = MaxASNsSegment then insertNewASSequence p else p
    let p2 :=
      match p1 with
      | [] => []
      | seg :: rest => { seg with asns := asn :: seg.asns } :: rest
    prependLoop asn k p2

/-- `BGPPath.Prepend` of `route/bgp_path.go` (lines 426-454), embedded
statement by statement; `times` is a `uint16` in Go. -/
def BGPPath.Prepend (b : BGPPath) (asn : Nat) (times : Nat) : BGPPath :=
  if times = 0 then b
  else
    let p0 := if b.asPath.length = 0 then insertNewASSequence b.asPath else b.asPath
    let p1 :=
      match p0 with
      | [] => p0
      | seg :: _ => if seg.segType = SegmentType.set then insertNewASSequence p0 else p0
    let p2 := prependLoop asn times p1
    { b with asPath := p2, asPathLen := ASPath.effLength p2 % 65536 }

/-- `IP_Version` of the generated `net/api/net.proto` code
(`src/unnamed/part_000`): the version-tag enum of the `bio.net.IP`
message, `IP_IPv4 = 0` and `IP_IPv6 = 1`. -/
inductive IP_Version where
  | IPv4 : IP_Version
  | IPv6 : IP_Version
deriving DecidableEq

/-- The `bio.net.IP` proto message of the generated `net/api/net.proto`
code (`src/unnamed/part_000`): fields `Higher uint64`, `Lower uint64`
and `Version IP_Version` (the 128-bit value as two 64-bit halves plus
the explicit version tag). -/
structure ProtoIP where
  higher : Nat
  lower : Nat
  version : IP_Version
deriving DecidableEq

/-- Modelled from the spec: an AS-path segment of the external form, a
{type, AS-number list} pair. -/
structure ProtoASPathSegment where
  asSequence : Bool
  asns : List Nat
deriving DecidableEq

/-- Modelled from the spec: a large community of the external form, a
96-bit triplet. -/
structure ProtoLargeCommunity where
  globalAdministrator : Nat
  dataPart1 : Nat
  dataPart2 : Nat
deriving DecidableEq

/-- Modelled from the spec: an unknown path attribute of the external
form, preserving the raw record. -/
structure ProtoUnknownPathAttribute where
  attrTypeCode : Nat
  attrValue : List Nat
  wireLength : Nat
deriving DecidableEq

/-- Modelled from the spec: `api.BGPPath`, the external (proto) form of
a path. -/
structure ApiBGPPath where
  pathIdentifier : Nat
  nextHop : ProtoIP
  localPref : Nat
  asPath : List ProtoASPathSegment
  origin : Nat
  med : Nat
  ebgp : Bool
  bgpIdentifier : Nat
  source : ProtoIP
  communities : List Nat
  largeCommunities : List ProtoLargeCommunity
  unknownAttributes : List ProtoUnknownPathAttribute
  originatorId : Nat
  clusterList : List Nat
deriving DecidableEq

/-- Modelled from the spec: `bnet.IP.ToProto` (bnet is not under
`src/`), preserving the two 64-bit halves and mapping the version tag
onto the generated `IP_Version` enum bit-for-bit. -/
def IP.ToProto (a : IP) : ProtoIP :=
  { higher := a.higher, lower := a.lower,
    version := if a.v6 then IP_Version.IPv6 else IP_Version.IPv4 }

/-- Modelled from the spec: `bnet.IPFromProtoIP` (bnet is not under
`src/`), the inverse of `IP.ToProto`. -/
def IPFromProtoIP (a : ProtoIP) : IP :=
  { v6 := decide (a.version = IP_Version.IPv6), higher := a.higher, lower := a.lower }

/-- Modelled from the spec: `types.ASPath.ToProto`, segment-wise
{type, ASN list} conversion. -/
def ASPath.ToProto (p : ASPath) : List ProtoASPathSegment :=
  p.map (fun seg => { asSequence := seg.segType = SegmentType.sequence, asns := seg.asns })

/-- Modelled from the spec: `types.ASPathFromProtoASPath`, the inverse
segment-wise conversion. -/
def ASPathFromProtoASPath (p : List ProtoASPathSegment) : ASPath :=
  p.map (fun seg =>
    { segType := if seg.asSequence then SegmentType.sequence else SegmentType.set,
      asns := seg.asns })

/-- Modelled from the spec: `types.LargeCommunity.ToProto`, preserving
the triplet. -/
def LargeCommunity.ToProto (l : LargeCommunity) : ProtoLargeCommunity :=
  { globalAdministrator := l.globalAdministrator, dataPart1 := l.dataPart1,
    dataPart2 := l.dataPart2 }

/-- Modelled from the spec: `types.LargeCommunityFromProtoCommunity`,
the inverse. -/
def LargeCommunityFromProtoCommunity (l : ProtoLargeCommunity) : LargeCommunity :=
  { globalAdministrator := l.globalAdministrator, dataPart1 := l.dataPart1,
    dataPart2 := l.dataPart2 }

/-- Modelled from the spec: `types.UnknownPathAttribute.ToProto`,
preserving the raw record. -/
def UnknownPathAttribute.ToProto (u : UnknownPathAttribute) : ProtoUnknownPathAttribute :=
  { attrTypeCode := u.attrTypeCode, attrValue := u.attrValue, wireLength := u.wireLength }

/-- Modelled from the spec:
`types.UnknownPathAttributeFromProtoUnknownPathAttribute`, the
inverse. -/
def UnknownPathAttributeFromProtoUnknownPathAttribute
    (u : ProtoUnknownPathAttribute) : UnknownPathAttribute :=
  { attrTypeCode := u.attrTypeCode, attrValue := u.attrValue, wireLength := u.wireLength }

/-- `BGPPath.ToProto` of `route/bgp_path.go` (lines 50-85).  The source
dereferences the four sequence pointers without nil checks (`len(*b.Communities)`
and so on); a nil there is a panic, modelled as `none`. -/
def BGPPath.ToProto (b : BGPPath) : Option ApiBGPPath :=
  match b.communities, b.largeCommunities, b.unknownAttributes, b.clusterList with
  | some cs, some ls, some us, some cl =>
    some
      { pathIdentifier := b.pathIdentifier
        nextHop := b.bgpPathA.nextHop.ToProto
        localPref := b.bgpPathA.localPref
        asPath := ASPath.ToProto b.asPath
        origin := b.bgpPathA.origin
        med := b.bgpPathA.med
        ebgp := b.bgpPathA.ebgp
        bgpIdentifier := b.bgpPathA.bgpIdentifier
        source := b.bgpPathA.source.ToProto
        communities := cs
        largeCommunities := ls.map LargeCommunity.ToProto
        unknownAttributes := us.map UnknownPathAttribute.ToProto
        originatorId := b.bgpPathA.originatorID
        clusterList := cl }
  | _, _, _, _ => none

/-- `BGPPathFromProtoBGPPath` of `route/bgp_path.go` (lines 87-135),
embedded statement by statement.  Note the source never assigns
`ASPathLen` (it stays at Go's zero value 0), and `Origin` passes
through a `uint8` conversion. -/
def BGPPathFromProtoBGPPath (pb : ApiBGPPath) : BGPPath :=
  let p : BGPPath :=
    { bgpPathA :=
        { nextHop := IPFromProtoIP pb.nextHop
          localPref := pb.localPref
          originatorID := pb.originatorId
          origin := pb.origin % 256
          med := pb.med
          ebgp := pb.ebgp
          bgpIdentifier := pb.bgpIdentifier
          source := IPFromProtoIP pb.source
          aggregator := none
          atomicAggregate := false }
      pathIdentifier := pb.pathIdentifier
      asPath := ASPathFromProtoASPath pb.asPath
      clusterList := none
      communities := none
      largeCommunities := none
      unknownAttributes := none
      asPathLen := 0 }
  let p := p.Dedup
  { p with
    communities := some pb.communities
    largeCommunities := some (pb.largeCommunities.map LargeCommunityFromProtoCommunity)
    unknownAttributes :=
      some (pb.unknownAttributes.map UnknownPathAttributeFromProtoUnknownPathAttribute)
    clusterList := some pb.clusterList }

/-! ### Helper lemmas about the modelled IP comparison -/

lemma IP.Compare_self (a : IP) : IP.Compare a a = 0 := by
  simp [IP.Compare]

lemma IP.Compare_swap (a b : IP) : IP.Compare b a = -IP.Compare a b := by
  unfold IP.Compare
  rcases Nat.lt_trichotomy a.higher b.higher with h1 | h1 | h1 <;>
    rcases Nat.lt_trichotomy a.lower b.lower with h2 | h2 | h2 <;>
      rcases Bool.eq_false_or_eq_true a.v6 with h3 | h3 <;>
        rcases Bool.eq_false_or_eq_true b.v6 with h4 | h4 <;>
          simp_all <;> omega

lemma IP.Compare_cases (a b : IP) :
    IP.Compare a b = -1 ∨ IP.Compare a b = 0 ∨ IP.Compare a b = 1 := by
  unfold IP.Compare
  split_ifs <;> simp

/-! ### The projection of a path onto the data `Select` reads -/

/-- The fields of a `BGPPath` that `Select` reads: the listed attribute
set fields, the cached AS-path length, and the presence and length of
the cluster list (the cluster-list members themselves are never
read). -/
structure SelView where
  localPref : Nat
  asPathLen : Nat
  origin : Nat
  med : Nat
  ebgp : Bool
  bgpIdentifier : Nat
  originatorID : Nat
  clusterLen : Option Nat
  source : IP
  nextHop : IP
deriving DecidableEq

/-- The effective identifier of a view, as in `BGPPathA.effectiveID`. -/
def SelView.effectiveID (v : SelView) : Nat :=
  if v.originatorID ≠ 0 then v.originatorID else v.bgpIdentifier

/-- Project a path onto the data `Select` reads. -/
def selView (b : BGPPath) : SelView :=
  { localPref := b.bgpPathA.localPref
    asPathLen := b.asPathLen
    origin := b.bgpPathA.origin
    med := b.bgpPathA.med
    ebgp := b.bgpPathA.ebgp
    bgpIdentifier := b.bgpPathA.bgpIdentifier
    originatorID := b.bgpPathA.originatorID
    clusterLen := b.clusterList.map List.length
    source := b.bgpPathA.source
    nextHop := b.bgpPathA.nextHop }

/-- `Select` restricted to views; identical decision cascade. -/
def SelectV (b c : SelView) : Option Int :=
  if c.localPref < b.localPref then some 1
  else if c.localPref > b.localPref then some (-1)
  else if c.asPathLen > b.asPathLen then some 1
  else if c.asPathLen < b.asPathLen then some (-1)
  else if c.origin > b.origin then some 1
  else if c.origin < b.origin then some (-1)
  else if c.med > b.med then some 1
  else if c.med < b.med then some (-1)
  else if c.ebgp && !b.ebgp then some (-1)
  else if !c.ebgp && b.ebgp then some 1
  else if c.effectiveID < b.effectiveID then some 1
  else if c.effectiveID > b.effectiveID then some (-1)
  else
    match c.clusterLen, b.clusterLen with
    | some lc, some lb =>
      if lc < lb then some 1
      else if lc > lb then some (-1)
      else if IP.Compare c.source b.source = -1 then some 1
      else if IP.Compare c.source b.source = 1 then some (-1)
      else if IP.Compare c.nextHop b.nextHop = -1 then some 1
      else if IP.Compare c.nextHop b.nextHop = 1 then some (-1)
      else some 0
    | _, _ => none

lemma Select_eq_SelectV (b c : BGPPath) :
    b.Select c = SelectV (selView b) (selView c) := by
  cases hb : b.clusterList <;> cases hc : c.clusterList <;>
    simp [BGPPath.Select, SelectV, selView, BGPPathA.effectiveID, SelView.effectiveID, hb, hc]

lemma SelectV_self (v : SelView) (hv : v.clusterLen.isSome) : SelectV v v = some 0 := by
  obtain ⟨n, hn⟩ := Option.isSome_iff_exists.mp hv
  simp [SelectV, hn, IP.Compare_self]

lemma SelectV_antisymm (v w : SelView)
    (hv : v.clusterLen.isSome) (hw : w.clusterLen.isSome) :
    ∃ r : Int, SelectV v w = some r ∧ SelectV w v = some (-r) := by
  obtain ⟨nv, hnv⟩ := Option.isSome_iff_exists.mp hv
  obtain ⟨nw, hnw⟩ := Option.isSome_iff_exists.mp hw
  rcases Nat.lt_trichotomy w.localPref v.localPref with h1 | h1 | h1
  · exact ⟨1, by simp [SelectV, h1, Nat.lt_asymm h1], by simp [SelectV, h1, Nat.lt_asymm h1]⟩
  rotate_left
  · exact ⟨-1, by simp [SelectV, h1, Nat.lt_asymm h1], by simp [SelectV, h1, Nat.lt_asymm h1]⟩
  rcases Nat.lt_trichotomy w.asPathLen v.asPathLen with h2 | h2 | h2
  · exact ⟨-1, by simp [SelectV, h1, h2, Nat.lt_asymm h2],
      by simp [SelectV, h1, h2, Nat.lt_asymm h2]⟩
  rotate_left
  · exact ⟨1, by simp [SelectV, h1, h2, Nat.lt_asymm h2],
      by simp [SelectV, h1, h2, Nat.lt_asymm h2]⟩
  rcases Nat.lt_trichotomy w.origin v.origin with h3 | h3 | h3
  · exact ⟨-1, by simp [SelectV, h1, h2, h3, Nat.lt_asymm h3],
      by simp [SelectV, h1, h2, h3, Nat.lt_asymm h3]⟩
  rotate_left
  · exact ⟨1, by simp [SelectV, h1, h2, h3, Nat.lt_asymm h3],
      by simp [SelectV, h1, h2, h3, Nat.lt_asymm h3]⟩
  rcases Nat.lt_trichotomy w.med v.med with h4 | h4 | h4
  · exact ⟨-1, by simp [SelectV, h1, h2, h3, h4, Nat.lt_asymm h4],
      by simp [SelectV, h1, h2, h3, h4, Nat.lt_asymm h4]⟩
  rotate_left
  · exact ⟨1, by simp [SelectV, h1, h2, h3, h4, Nat.lt_asymm h4],
      by simp [SelectV, h1, h2, h3, h4, Nat.lt_asymm h4]⟩
  by_cases h5 : v.ebgp = w.ebgp
  case neg =>
    cases hvb : v.ebgp <;> cases hwb : w.ebgp <;> rw [hvb, hwb] at h5 <;> try simp at h5
    · exact ⟨-1, by simp [SelectV, h1, h2, h3, h4, hvb, hwb],
        by simp [SelectV, h1, h2, h3, h4, hvb, hwb]⟩
    · exact ⟨1, by simp [SelectV, h1, h2, h3, h4, hvb, hwb],
        by simp [SelectV, h1, h2, h3, h4, hvb, hwb]⟩
  case pos =>
  rcases Nat.lt_trichotomy w.effectiveID v.effectiveID with h6 | h6 | h6
  · exact ⟨1, by simp [SelectV, h1, h2, h3, h4, h5, h6, Nat.lt_asymm h6],
      by simp [SelectV, h1, h2, h3, h4, h5, h6, Nat.lt_asymm h6]⟩
  rotate_left
  · exact ⟨-1, by simp [SelectV, h1, h2, h3, h4, h5, h6, Nat.lt_asymm h6],
      by simp [SelectV, h1, h2, h3, h4, h5, h6, Nat.lt_asymm h6]⟩
  rcases Nat.lt_trichotomy nw nv with h7 | h7 | h7
  · exact ⟨1, by simp [SelectV, h1, h2, h3, h4, h5, h6, hnv, hnw, h7, Nat.lt_asymm h7],
      by simp [SelectV, h1, h2, h3, h4, h5, h6, hnv, hnw, h7, Nat.lt_asymm h7]⟩
  rotate_left
  · exact ⟨-1, by simp [SelectV, h1, h2, h3, h4, h5, h6, hnv, hnw, h7, Nat.lt_asymm h7],
      by simp [SelectV, h1, h2, h3, h4, h5, h6, hnv, hnw, h7, Nat.lt_asymm h7]⟩
  have hsw : IP.Compare v.source w.source = -IP.Compare w.source v.source :=
    IP.Compare_swap w.source v.source
  rcases IP.Compare_cases w.source v.source with h8 | h8 | h8
  · rw [h8] at hsw
    exact ⟨1, by simp [SelectV, h1, h2, h3, h4, h5, h6, hnv, hnw, h7, h8],
      by simp [SelectV, h1, h2, h3, h4, h5, h6, hnv, hnw, h7, hsw]⟩
  rotate_left
  · rw [h8] at hsw
    exact ⟨-1, by simp [SelectV, h1, h2, h3, h4, h5, h6, hnv, hnw, h7, h8],
      by simp [SelectV, h1, h2, h3, h4, h5, h6, hnv, hnw, h7, hsw]⟩
  rw [h8] at hsw
  have hnw2 : IP.Compare v.nextHop w.nextHop = -IP.Compare w.nextHop v.nextHop :=
    IP.Compare_swap w.nextHop v.nextHop
  rcases IP.Compare_cases w.nextHop v.nextHop with h9 | h9 | h9
  · rw [h9] at hnw2
    exact ⟨1, by simp [SelectV, h1, h2, h3, h4, h5, h6, hnv, hnw, h7, h8, hsw, h9],
      by simp [SelectV, h1, h2, h3, h4, h5, h6, hnv, hnw, h7, h8, hsw, h9, hnw2]⟩
  rotate_left
  · rw [h9] at hnw2
    exact ⟨-1, by simp [SelectV, h1, h2, h3, h4, h5, h6, hnv, hnw, h7, h8, hsw, h9],
      by simp [SelectV, h1, h2, h3, h4, h5, h6, hnv, hnw, h7, h8, hsw, h9, hnw2]⟩
  rw [h9] at hnw2
  exact ⟨0, by simp [SelectV, h1, h2, h3, h4, h5, h6, hnv, hnw, h7, h8, hsw, h9],
    by simp [SelectV, h1, h2, h3, h4, h5, h6, hnv, hnw, h7, h8, hsw, h9, hnw2]⟩

/-! ### Concrete paths used as inputs of the claim theorems -/

/-- A small concrete IP address. -/
def ipA : IP := { v6 := false, higher := 0, lower := 1 }

/-- A concrete attribute set on which every `Select` criterion ties
with itself. -/
def paTie : BGPPathA :=
  { nextHop := ipA, source := ipA, localPref := 100, med := 0, bgpIdentifier := 10,
    originatorID := 0, aggregator := none, ebgp := false, atomicAggregate := false,
    origin := 0 }

/-- A concrete path with empty sequences, all containers present. -/
def pTie : BGPPath :=
  { bgpPathA := paTie, asPath := [], clusterList := some [], communities := some [],
    largeCommunities := some [], unknownAttributes := some [], pathIdentifier := 0,
    asPathLen := 0 }

/-- `pTie` with local preference 200 instead of 100. -/
def pHiLP : BGPPath := { pTie with bgpPathA := { paTie with localPref := 200 } }

/-- The path `Y` of the spec's route-reflector example: BGP identifier
20 but originator ID 5, so its effective identifier is 5, lower than
`pTie`'s 10; every earlier criterion ties with `pTie`. -/
def pLowEffID : BGPPath :=
  { pTie with bgpPathA := { paTie with bgpIdentifier := 20, originatorID := 5 } }

/-- Claim C1 (code bug).  The sign convention of `Select` is anchored
by its first five criteria: the first conjunct shows the path with the
HIGHER local preference gets the positive result, as the claim's
criterion 1 demands.  Under that convention criterion 6 is inverted in
the source: in the spec's own route-reflector example (`pTie` has
effective identifier 10, `pLowEffID` has 5, criteria 1-5 all tie),
`Select pTie pLowEffID` returns 1, preferring the HIGHER effective
identifier, where the claim demands -1 (lower wins).  Criteria 7-9 are
inverted the same way in the source. -/
theorem c1_select_inverts_identifier_tiebreak :
    pHiLP.Select pTie = some 1 ∧ pTie.Select pLowEffID = some 1 := by decide

/-- Claim C2 (code bug): with every one of the first six criteria tied,
`Select` dereferences the cluster-list pointers without a nil check; an
absent cluster list is a nil-pointer panic (modelled `none`), not a
length-0 comparison, whichever side is absent. -/
theorem c2_select_panics_on_nil_cluster_list :
    pTie.Select { pTie with clusterList := none } = none ∧
    ({ pTie with clusterList := none } : BGPPath).Select pTie = none := by decide

/-- Claim C3: for paths whose cluster lists are present, `Select` is
total (always returns a result `r`), exactly one of positive, zero and
negative holds for `r`, and the result of the swapped comparison is the
negation. -/
theorem c3_select_total_antisymmetric (b c : BGPPath)
    (hb : b.clusterList.isSome) (hc : c.clusterList.isSome) :
    ∃ r : Int, b.Select c = some r ∧ c.Select b = some (-r) ∧
      (0 < r ∨ r < 0 ∨ r = 0) ∧ ¬(0 < r ∧ r < 0) ∧ ¬(0 < r ∧ r = 0) ∧ ¬(r < 0 ∧ r = 0) := by
  have hv : (selView b).clusterLen.isSome := by
    obtain ⟨l, hl⟩ := Option.isSome_iff_exists.mp hb
    simp [selView, hl]
  have hw : (selView c).clusterLen.isSome := by
    obtain ⟨l, hl⟩ := Option.isSome_iff_exists.mp hc
    simp [selView, hl]
  obtain ⟨r, h1, h2⟩ := SelectV_antisymm (selView b) (selView c) hv hw
  refine ⟨r, ?_, ?_, by omega, by omega, by omega, by omega⟩
  · rw [Select_eq_SelectV]; exact h1
  · rw [Select_eq_SelectV]; exact h2

/-- Witness for C3 at a concrete input. -/
theorem c3_witness :
    pTie.clusterList.isSome ∧
    (∃ r : Int, pTie.Select pTie = some r ∧ pTie.Select pTie = some (-r) ∧
      (0 < r ∨ r < 0 ∨ r = 0) ∧ ¬(0 < r ∧ r < 0) ∧ ¬(0 < r ∧ r = 0) ∧ ¬(r < 0 ∧ r = 0)) :=
  ⟨by decide, c3_select_total_antisymmetric pTie pTie (by decide) (by decide)⟩

set_option maxRecDepth 4000 in
/-- Claim C4 (code bug): the `Prepend` loop compares the number of
SEGMENTS of the AS path against `MaxASNsSegment` instead of the ASN
count of the leading segment, so prepending 256 times onto an empty AS
path yields a single SEQUENCE segment with 256 > 255 AS numbers and no
new segment is ever inserted.  (The second half of the claim, that the
stored `ASPathLen` equals the recomputed effective length, does hold,
shown here at the same input.) -/
theorem c4_prepend_exceeds_max_segment_length :
    ((pTie.Prepend 65001 256).asPath.map (fun s => s.asns.length) = [256]) ∧
    MaxASNsSegment = 255 ∧
    (pTie.Prepend 65001 256).asPathLen
      = ASPath.effLength (pTie.Prepend 65001 256).asPath % 65536 := by decide

/-- The path of the spec's wire-length example: empty communities,
large communities and cluster list, originator ID 0, one SEQUENCE
segment of 2 AS numbers. -/
def pLen2 : BGPPath :=
  { pTie with
    asPath := [{ segType := SegmentType.sequence, asns := [64512, 64513] }],
    asPathLen := 2 }

/-- Counterexample for claim C5: on the claim's own input the source
returns 44, not 4*7 + 4 + (3 + 4*2) = 43. -/
theorem c5_counterexample : pLen2.Length ≠ 4 * 7 + 4 + (3 + 4 * 2) := by decide

/-- Claim C5 as amended: `Length` charges one extra length unit per
AS-path segment (the per-segment header byte of the source's loop), so
the example path serializes to 4*7 + 4 + (3 + 1 + 4*2) = 44 bytes. -/
theorem c5_length_amended (b : BGPPath) (a1 a2 : Nat)
    (hap : b.asPath = [{ segType := SegmentType.sequence, asns := [a1, a2] }])
    (hc : b.communities = none ∨ b.communities = some [])
    (hl : b.largeCommunities = none ∨ b.largeCommunities = some [])
    (hcl : b.clusterList = none ∨ b.clusterList = some [])
    (hu : b.unknownAttributes = none ∨ b.unknownAttributes = some [])
    (ho : b.bgpPathA.originatorID = 0) :
    b.Length = 4 * 7 + 4 + (3 + 1 + 4 * 2) := by
  rcases hc with hc | hc <;> rcases hl with hl | hl <;> rcases hu with hu | hu <;>
    simp [BGPPath.Length, hap, hc, hl, hu, ho]

/-- Witness for the amended C5 at the concrete example path. -/
theorem c5_witness :
    pLen2.asPath = [{ segType := SegmentType.sequence, asns := [64512, 64513] }] ∧
    pLen2.Length = 4 * 7 + 4 + (3 + 1 + 4 * 2) :=
  ⟨rfl, c5_length_amended pLen2 64512 64513 rfl (Or.inr rfl) (Or.inr rfl) (Or.inr rfl)
    (Or.inr rfl) rfl⟩

/-- Claim C6 (code bug): the source computes the cluster-list
contribution (3 bytes plus 4 per entry) but omits it from the returned
sum, so a path with cluster list [42] has the same `Length` as the same
path with an empty cluster list; the communities contribution claimed
alongside it IS added (third conjunct: one community adds 3 + 4 = 7). -/
theorem c6_cluster_list_contribution_dropped :
    ({ pLen2 with clusterList := some [42] } : BGPPath).Length = pLen2.Length ∧
    pLen2.Length = 44 ∧
    ({ pLen2 with communities := some [9] } : BGPPath).Length = 44 + 7 := by decide

/-- A well-formed path with a non-empty AS path: one SEQUENCE segment
with one AS number, cached effective length 1, all containers
present. -/
def pRT : BGPPath :=
  { pTie with
    asPath := [{ segType := SegmentType.sequence, asns := [65001] }],
    asPathLen := 1 }

/-- Claim C8 (code bug): `BGPPathFromProtoBGPPath` never assigns
`ASPathLen`, which stays at Go's zero value; the round-tripped path
therefore differs from `pRT` (whose cached length is 1, equal to the
recomputed effective length, first conjunct) at `Select`'s AS-path
length criterion, and `Equal` returns false instead of true. -/
theorem c8_roundtrip_not_equal :
    pRT.asPathLen = ASPath.effLength pRT.asPath ∧
    pRT.ToProto.map (fun a => (BGPPathFromProtoBGPPath a).asPathLen) = some 0 ∧
    pRT.ToProto.map (fun a => (BGPPathFromProtoBGPPath a).Equal pRT) = some (some false) := by
  decide

/-- The claim's ECMP-criteria strict preference, written from the
spec's words for comparison with the source's `betterECMP`: the first
path is strictly preferred when it wins the first of local preference
(higher wins), AS-path effective length (shorter wins), origin (lower
wins) and MED (lower wins) on which the two differ. -/
def ecmpStrictlyPreferred (b c : BGPPath) : Bool :=
  decide (b.bgpPathA.localPref > c.bgpPathA.localPref) ||
  (decide (b.bgpPathA.localPref = c.bgpPathA.localPref) &&
    (decide (b.asPathLen < c.asPathLen) ||
      (decide (b.asPathLen = c.asPathLen) &&
        (decide (b.bgpPathA.origin < c.bgpPathA.origin) ||
          (decide (b.bgpPathA.origin = c.bgpPathA.origin) &&
            decide (b.bgpPathA.med < c.bgpPathA.med))))))

/-- Claim C9's predicate, written from the claim's words for
comparison with the source's `better`: true exactly when b is strictly
preferred under the four ECMP criteria, or those four tie and b has
the lower BGP identifier, or they tie with equal identifiers and b has
the lower source address. -/
def betterClaimC9 (b c : BGPPath) : Bool :=
  let ties := decide (b.bgpPathA.localPref = c.bgpPathA.localPref) &&
    decide (b.asPathLen = c.asPathLen) &&
    decide (b.bgpPathA.origin = c.bgpPathA.origin) &&
    decide (b.bgpPathA.med = c.bgpPathA.med)
  ecmpStrictlyPreferred b c ||
  (ties && decide (b.bgpPathA.bgpIdentifier < c.bgpPathA.bgpIdentifier)) ||
  (ties && decide (b.bgpPathA.bgpIdentifier = c.bgpPathA.bgpIdentifier) &&
    decide (IP.Compare b.bgpPathA.source c.bgpPathA.source = -1))

/-- Counterexample for claim C9: `pHiLP` is strictly preferred over
`pTie` by the very first ECMP criterion (local preference 200 against
100), so the claim demands `better pHiLP pTie = true`; the source
returns false. -/
theorem c9_counterexample :
    betterClaimC9 pHiLP pTie = true ∧ pHiLP.better pTie = false := by decide

/-- Claim C9 as amended: the source's `better b c` is true exactly when
the ARGUMENT `c` is strictly preferred over the receiver `b` under the
four ECMP criteria, or - regardless of whether those criteria tie -
`c` has the strictly lower (raw) BGP identifier, or `c` has the
strictly lower source address; `betterECMP b c` likewise decides that
`c` is strictly preferred over `b`. -/
theorem c9_better_characterization (b c : BGPPath) :
    b.betterECMP c = ecmpStrictlyPreferred c b ∧
    b.better c = (ecmpStrictlyPreferred c b ||
      decide (c.bgpPathA.bgpIdentifier < b.bgpPathA.bgpIdentifier) ||
      decide (IP.Compare c.bgpPathA.source b.bgpPathA.source = -1)) := by
  have h1 : b.betterECMP c = ecmpStrictlyPreferred c b := by
    unfold BGPPath.betterECMP ecmpStrictlyPreferred
    split_ifs <;> simp_all <;> omega
  refine ⟨h1, ?_⟩
  unfold BGPPath.better
  rw [h1]
  split_ifs with h2 h3 h4 <;> simp_all

/-- Counterexample for claim C10: two paths that differ only in their
communities (and agree on everything `Select` reads) do not compare as
equal when their cluster lists are absent - the source panics on the
nil cluster-list dereference (modelled `none`) instead of returning
0. -/
theorem c10_counterexample :
    ({ pTie with clusterList := none, communities := some [1] } : BGPPath).Select
      { pTie with clusterList := none, communities := some [2] } = none ∧
    ({ pTie with clusterList := none, communities := some [1] } : BGPPath).communities ≠
      ({ pTie with clusterList := none, communities := some [2] } : BGPPath).communities := by
  decide

/-- Claim C10 as amended: `Select` reads only the projection `selView`
(local preference, cached AS-path length, origin, MED, eBGP flag, BGP
identifier, originator ID, source, next hop, and the presence and
length of the cluster list): pairs of paths with equal projections get
identical results; and two paths with the same projection - equal in
every field `Select` reads, differing at most in AS-path contents,
communities, large communities, unknown attributes, aggregator,
atomic-aggregate flag or path identifier - compare as equal (0)
provided the cluster lists are present. -/
theorem c10_select_reads_only_selview :
    (∀ b c b2 c2 : BGPPath, selView b = selView b2 → selView c = selView c2 →
      b.Select c = b2.Select c2) ∧
    (∀ b c : BGPPath, selView b = selView c → b.clusterList.isSome →
      b.Select c = some 0) := by
  constructor
  · intro b c b2 c2 hb hc
    rw [Select_eq_SelectV, Select_eq_SelectV, hb, hc]
  · intro b c h hb
    have hv : (selView b).clusterLen.isSome := by
      obtain ⟨l, hl⟩ := Option.isSome_iff_exists.mp hb
      simp [selView, hl]
    rw [Select_eq_SelectV, ← h]
    exact SelectV_self (selView b) hv

/-- Witness for the amended C10 at a concrete input. -/
theorem c10_witness :
    pTie.Select pTie = pTie.Select pTie ∧ pTie.Select pTie = some 0 :=
  ⟨c10_select_reads_only_selview.1 pTie pTie pTie pTie rfl rfl,
    c10_select_reads_only_selview.2 pTie pTie rfl (by decide)⟩

/-! ### A heap-passing embedding of `Copy`

`Copy` is about pointer identity (which cells are freshly allocated and
which stay shared), so it is embedded against an explicit heap: every
pointer of the Go data becomes an address into `Mem`, and the Go slice
inside each AS-path segment becomes an address as well (Go's
`copy(*cp.ASPath, *b.ASPath)` copies segment records, so the copied
records still hold the same ASN-slice references). -/

/-- A segment record as stored on the heap: the segment type plus the
ADDRESS of its ASN sequence. -/
structure SegR where
  segType : SegmentType
  asnsRef : Nat
deriving DecidableEq

/-- The heap: an allocation counter plus one cell store per cell type
(`[]uint32` cells, `[]LargeCommunity` cells, `[]UnknownPathAttribute`
cells, AS-path cells of segment records, and attribute-set cells). -/
structure Mem where
  next : Nat
  u32s : Nat → List Nat
  lcs : Nat → List LargeCommunity
  uas : Nat → List UnknownPathAttribute
  segs : Nat → List SegR
  pas : Nat → BGPPathA

/-- `BGPPath` with its pointer fields represented as heap addresses;
the nilable pointers are `Option` addresses. -/
structure BGPPathR where
  bgpPathARef : Nat
  asPathRef : Nat
  clusterListRef : Option Nat
  communitiesRef : Option Nat
  largeCommunitiesRef : Option Nat
  unknownAttributesRef : Option Nat
  pathIdentifier : Nat
  asPathLen : Nat
deriving DecidableEq

attribute [ext] BGPPath

/-- Dereference a stored segment record into a segment value. -/
def readSeg (m : Mem) (s : SegR) : ASPathSegment :=
  { segType := s.segType, asns := m.u32s s.asnsRef }

/-- The observable value of a heap-resident path: every reference
dereferenced into the plain value model. -/
def readPath (m : Mem) (b : BGPPathR) : BGPPath :=
  { bgpPathA := m.pas b.bgpPathARef
    asPath := (m.segs b.asPathRef).map (readSeg m)
    clusterList := b.clusterListRef.map m.u32s
    communities := b.communitiesRef.map m.u32s
    largeCommunities := b.largeCommunitiesRef.map m.lcs
    unknownAttributes := b.unknownAttributesRef.map m.uas
    pathIdentifier := b.pathIdentifier
    asPathLen := b.asPathLen }

/-- Allocate a fresh `[]uint32` cell. -/
def allocU32 (m : Mem) (xs : List Nat) : Mem × Nat :=
  ({ m with next := m.next + 1, u32s := Function.update m.u32s m.next xs }, m.next)

/-- Allocate a fresh `[]LargeCommunity` cell. -/
def allocLcs (m : Mem) (xs : List LargeCommunity) : Mem × Nat :=
  ({ m with next := m.next + 1, lcs := Function.update m.lcs m.next xs }, m.next)

/-- Allocate a fresh AS-path cell. -/
def allocSegs (m : Mem) (xs : List SegR) : Mem × Nat :=
  ({ m with next := m.next + 1, segs := Function.update m.segs m.next xs }, m.next)

/-- Overwrite a `[]uint32` cell (a mutation through a pointer). -/
def writeU32 (m : Mem) (a : Nat) (v : List Nat) : Mem :=
  { m with u32s := Function.update m.u32s a v }

/-- Overwrite a `[]LargeCommunity` cell. -/
def writeLcs (m : Mem) (a : Nat) (v : List LargeCommunity) : Mem :=
  { m with lcs := Function.update m.lcs a v }

/-- Overwrite a `[]UnknownPathAttribute` cell. -/
def writeUas (m : Mem) (a : Nat) (v : List UnknownPathAttribute) : Mem :=
  { m with uas := Function.update m.uas a v }

/-- Overwrite an AS-path cell. -/
def writeSegs (m : Mem) (a : Nat) (v : List SegR) : Mem :=
  { m with segs := Function.update m.segs a v }

/-- The `if cp.X != nil { ... }` blocks of `Copy`: when present,
allocate a fresh cell holding the current contents of the referenced
`[]uint32` cell. -/
def copyOptU32 (m : Mem) (r : Option Nat) : Mem × Option Nat :=
  match r with
  | none => (m, none)
  | some a => ((allocU32 m (m.u32s a)).1, some (allocU32 m (m.u32s a)).2)

/-- As `copyOptU32`, for the large-community cell. -/
def copyOptLcs (m : Mem) (r : Option Nat) : Mem × Option Nat :=
  match r with
  | none => (m, none)
  | some a => ((allocLcs m (m.lcs a)).1, some (allocLcs m (m.lcs a)).2)

/-- `BGPPath.Copy` of `route/bgp_path.go` (lines 467-498) over the
heap: `cp := *b` keeps every reference (in particular the attribute
set and the unknown attributes stay shared); then a fresh AS-path cell
is filled with the same segment RECORDS (sharing their ASN cells), and
fresh cells are allocated for communities, large communities and
cluster list when present, in that order. -/
def BGPPathR.Copy (m : Mem) (b : BGPPathR) : Mem × BGPPathR :=
  let pa := allocSegs m (m.segs b.asPathRef)
  let pc := copyOptU32 pa.1 b.communitiesRef
  let pl := copyOptLcs pc.1 b.largeCommunitiesRef
  let pcl := copyOptU32 pl.1 b.clusterListRef
  (pcl.1,
    { b with
      asPathRef := pa.2
      communitiesRef := pc.2
      largeCommunitiesRef := pl.2
      clusterListRef := pcl.2 })

/-- Heap well-formedness of a path: every address it can reach
(directly or through a stored segment record) has been allocated. -/
def validR (m : Mem) (b : BGPPathR) : Prop :=
  b.bgpPathARef < m.next ∧ b.asPathRef < m.next ∧
  (∀ r ∈ b.clusterListRef, r < m.next) ∧
  (∀ r ∈ b.communitiesRef, r < m.next) ∧
  (∀ r ∈ b.largeCommunitiesRef, r < m.next) ∧
  (∀ r ∈ b.unknownAttributesRef, r < m.next) ∧
  (∀ s ∈ m.segs b.asPathRef, s.asnsRef < m.next)

/-! ### Facts about `BGPPathR.Copy` -/

lemma CopyR_bgpPathARef (m : Mem) (b : BGPPathR) :
    (BGPPathR.Copy m b).2.bgpPathARef = b.bgpPathARef := by
  rcases hc : b.communitiesRef with _ | rc <;> rcases hl : b.largeCommunitiesRef with _ | rl <;>
    rcases hk : b.clusterListRef with _ | rk <;>
      simp [BGPPathR.Copy, copyOptU32, copyOptLcs, allocU32, allocLcs, allocSegs, hc, hl, hk]

lemma CopyR_unknownRef (m : Mem) (b : BGPPathR) :
    (BGPPathR.Copy m b).2.unknownAttributesRef = b.unknownAttributesRef := by
  rcases hc : b.communitiesRef with _ | rc <;> rcases hl : b.largeCommunitiesRef with _ | rl <;>
    rcases hk : b.clusterListRef with _ | rk <;>
      simp [BGPPathR.Copy, copyOptU32, copyOptLcs, allocU32, allocLcs, allocSegs, hc, hl, hk]

lemma CopyR_id_len (m : Mem) (b : BGPPathR) :
    (BGPPathR.Copy m b).2.pathIdentifier = b.pathIdentifier ∧
    (BGPPathR.Copy m b).2.asPathLen = b.asPathLen := by
  rcases hc : b.communitiesRef with _ | rc <;> rcases hl : b.largeCommunitiesRef with _ | rl <;>
    rcases hk : b.clusterListRef with _ | rk <;>
      simp [BGPPathR.Copy, copyOptU32, copyOptLcs, allocU32, allocLcs, allocSegs, hc, hl, hk]

lemma CopyR_asPathRef (m : Mem) (b : BGPPathR) :
    (BGPPathR.Copy m b).2.asPathRef = m.next := by
  rcases hc : b.communitiesRef with _ | rc <;> rcases hl : b.largeCommunitiesRef with _ | rl <;>
    rcases hk : b.clusterListRef with _ | rk <;>
      simp [BGPPathR.Copy, copyOptU32, copyOptLcs, allocU32, allocLcs, allocSegs, hc, hl, hk]

lemma CopyR_segs (m : Mem) (b : BGPPathR) :
    (BGPPathR.Copy m b).1.segs = Function.update m.segs m.next (m.segs b.asPathRef) := by
  rcases hc : b.communitiesRef with _ | rc <;> rcases hl : b.largeCommunitiesRef with _ | rl <;>
    rcases hk : b.clusterListRef with _ | rk <;>
      simp [BGPPathR.Copy, copyOptU32, copyOptLcs, allocU32, allocLcs, allocSegs, hc, hl, hk]

lemma CopyR_pas (m : Mem) (b : BGPPathR) : (BGPPathR.Copy m b).1.pas = m.pas := by
  rcases hc : b.communitiesRef with _ | rc <;> rcases hl : b.largeCommunitiesRef with _ | rl <;>
    rcases hk : b.clusterListRef with _ | rk <;>
      simp [BGPPathR.Copy, copyOptU32, copyOptLcs, allocU32, allocLcs, allocSegs, hc, hl, hk]

lemma CopyR_uas (m : Mem) (b : BGPPathR) : (BGPPathR.Copy m b).1.uas = m.uas := by
  rcases hc : b.communitiesRef with _ | rc <;> rcases hl : b.largeCommunitiesRef with _ | rl <;>
    rcases hk : b.clusterListRef with _ | rk <;>
      simp [BGPPathR.Copy, copyOptU32, copyOptLcs, allocU32, allocLcs, allocSegs, hc, hl, hk]

lemma CopyR_next_lt (m : Mem) (b : BGPPathR) : m.next < (BGPPathR.Copy m b).1.next := by
  rcases hc : b.communitiesRef with _ | rc <;> rcases hl : b.largeCommunitiesRef with _ | rl <;>
    rcases hk : b.clusterListRef with _ | rk <;>
      simp [BGPPathR.Copy, copyOptU32, copyOptLcs, allocU32, allocLcs, allocSegs, hc, hl, hk] <;>
        omega

lemma CopyR_u32s_low (m : Mem) (b : BGPPathR) (a : Nat) (ha : a < m.next) :
    (BGPPathR.Copy m b).1.u32s a = m.u32s a := by
  rcases hc : b.communitiesRef with _ | rc <;> rcases hl : b.largeCommunitiesRef with _ | rl <;>
    rcases hk : b.clusterListRef with _ | rk <;>
      simp only [BGPPathR.Copy, copyOptU32, copyOptLcs, allocU32, allocLcs, allocSegs, hc, hl,
        hk, Function.update_apply] <;>
        split_ifs <;> first | rfl | omega

lemma CopyR_lcs_low (m : Mem) (b : BGPPathR) (a : Nat) (ha : a < m.next) :
    (BGPPathR.Copy m b).1.lcs a = m.lcs a := by
  rcases hc : b.communitiesRef with _ | rc <;> rcases hl : b.largeCommunitiesRef with _ | rl <;>
    rcases hk : b.clusterListRef with _ | rk <;>
      simp only [BGPPathR.Copy, copyOptU32, copyOptLcs, allocU32, allocLcs, allocSegs, hc, hl,
        hk, Function.update_apply] <;>
        split_ifs <;> first | rfl | omega

lemma CopyR_commRef_none (m : Mem) (b : BGPPathR) (hc : b.communitiesRef = none) :
    (BGPPathR.Copy m b).2.communitiesRef = none := by
  rcases hl : b.largeCommunitiesRef with _ | rl <;> rcases hk : b.clusterListRef with _ | rk <;>
    simp [BGPPathR.Copy, copyOptU32, copyOptLcs, allocU32, allocLcs, allocSegs, hc, hl, hk]

lemma CopyR_lcRef_none (m : Mem) (b : BGPPathR) (hl : b.largeCommunitiesRef = none) :
    (BGPPathR.Copy m b).2.largeCommunitiesRef = none := by
  rcases hc : b.communitiesRef with _ | rc <;> rcases hk : b.clusterListRef with _ | rk <;>
    simp [BGPPathR.Copy, copyOptU32, copyOptLcs, allocU32, allocLcs, allocSegs, hc, hl, hk]

lemma CopyR_clRef_none (m : Mem) (b : BGPPathR) (hk : b.clusterListRef = none) :
    (BGPPathR.Copy m b).2.clusterListRef = none := by
  rcases hc : b.communitiesRef with _ | rc <;> rcases hl : b.largeCommunitiesRef with _ | rl <;>
    simp [BGPPathR.Copy, copyOptU32, copyOptLcs, allocU32, allocLcs, allocSegs, hc, hl, hk]

lemma CopyR_commCell (m : Mem) (b : BGPPathR) (rc : Nat) (hc : b.communitiesRef = some rc) :
    ∃ r, (BGPPathR.Copy m b).2.communitiesRef = some r ∧ m.next ≤ r ∧
      (BGPPathR.Copy m b).1.u32s r = m.u32s rc := by
  rcases hl : b.largeCommunitiesRef with _ | rl <;> rcases hk : b.clusterListRef with _ | rk <;>
    refine ⟨m.next + 1, ?_, by omega, ?_⟩ <;>
      simp only [BGPPathR.Copy, copyOptU32, copyOptLcs, allocU32, allocLcs, allocSegs, hc, hl,
        hk, Function.update_apply] <;>
        split_ifs <;> first | rfl | omega

lemma CopyR_lcCell (m : Mem) (b : BGPPathR) (rl : Nat) (hl : b.largeCommunitiesRef = some rl) :
    ∃ r, (BGPPathR.Copy m b).2.largeCommunitiesRef = some r ∧ m.next ≤ r ∧
      (BGPPathR.Copy m b).1.lcs r = m.lcs rl := by
  rcases hc : b.communitiesRef with _ | rc <;> rcases hk : b.clusterListRef with _ | rk
  · refine ⟨m.next + 1, ?_, by omega, ?_⟩ <;>
      simp only [BGPPathR.Copy, copyOptU32, copyOptLcs, allocU32, allocLcs, allocSegs, hc, hl,
        hk, Function.update_apply] <;>
        split_ifs <;> first | rfl | omega
  · refine ⟨m.next + 1, ?_, by omega, ?_⟩ <;>
      simp only [BGPPathR.Copy, copyOptU32, copyOptLcs, allocU32, allocLcs, allocSegs, hc, hl,
        hk, Function.update_apply] <;>
        split_ifs <;> first | rfl | omega
  · refine ⟨m.next + 2, ?_, by omega, ?_⟩ <;>
      simp only [BGPPathR.Copy, copyOptU32, copyOptLcs, allocU32, allocLcs, allocSegs, hc, hl,
        hk, Function.update_apply] <;>
        split_ifs <;> first | rfl | omega
  · refine ⟨m.next + 2, ?_, by omega, ?_⟩ <;>
      simp only [BGPPathR.Copy, copyOptU32, copyOptLcs, allocU32, allocLcs, allocSegs, hc, hl,
        hk, Function.update_apply] <;>
        split_ifs <;> first | rfl | omega

lemma CopyR_clCell (m : Mem) (b : BGPPathR) (rk : Nat) (hk : b.clusterListRef = some rk)
    (hrk : rk < m.next) :
    ∃ r, (BGPPathR.Copy m b).2.clusterListRef = some r ∧ m.next ≤ r ∧
      (BGPPathR.Copy m b).1.u32s r = m.u32s rk := by
  rcases hc : b.communitiesRef with _ | rc <;> rcases hl : b.largeCommunitiesRef with _ | rl
  · refine ⟨m.next + 1, ?_, by omega, ?_⟩ <;>
      simp only [BGPPathR.Copy, copyOptU32, copyOptLcs, allocU32, allocLcs, allocSegs, hc, hl,
        hk, Function.update_apply] <;>
        split_ifs <;> first | rfl | omega
  · refine ⟨m.next + 2, ?_, by omega, ?_⟩ <;>
      simp only [BGPPathR.Copy, copyOptU32, copyOptLcs, allocU32, allocLcs, allocSegs, hc, hl,
        hk, Function.update_apply] <;>
        split_ifs <;> first | rfl | omega
  · refine ⟨m.next + 2, ?_, by omega, ?_⟩ <;>
      simp only [BGPPathR.Copy, copyOptU32, copyOptLcs, allocU32, allocLcs, allocSegs, hc, hl,
        hk, Function.update_apply] <;>
        split_ifs <;> first | rfl | omega
  · refine ⟨m.next + 3, ?_, by omega, ?_⟩ <;>
      simp only [BGPPathR.Copy, copyOptU32, copyOptLcs, allocU32, allocLcs, allocSegs, hc, hl,
        hk, Function.update_apply] <;>
        split_ifs <;> first | rfl | omega



lemma readPath_ext (M N : Mem) (b c : BGPPathR)
    (h1 : M.pas b.bgpPathARef = N.pas c.bgpPathARef)
    (h2 : (M.segs b.asPathRef).map (readSeg M) = (N.segs c.asPathRef).map (readSeg N))
    (h3 : Option.map M.u32s b.clusterListRef = Option.map N.u32s c.clusterListRef)
    (h4 : Option.map M.u32s b.communitiesRef = Option.map N.u32s c.communitiesRef)
    (h5 : Option.map M.lcs b.largeCommunitiesRef = Option.map N.lcs c.largeCommunitiesRef)
    (h6 : Option.map M.uas b.unknownAttributesRef = Option.map N.uas c.unknownAttributesRef)
    (h7 : b.pathIdentifier = c.pathIdentifier) (h8 : b.asPathLen = c.asPathLen) :
    readPath M b = readPath N c := by
  unfold readPath
  rw [h1, h2, h3, h4, h5, h6, h7, h8]


lemma readPath_writeU32 (m : Mem) (b : BGPPathR) (a : Nat) (v : List Nat)
    (h1 : ∀ r ∈ b.communitiesRef, r ≠ a) (h2 : ∀ r ∈ b.clusterListRef, r ≠ a)
    (h3 : ∀ s ∈ m.segs b.asPathRef, s.asnsRef ≠ a) :
    readPath (writeU32 m a v) b = readPath m b := by
  refine readPath_ext _ _ _ _ rfl ?_ ?_ ?_ rfl rfl rfl rfl
  · exact List.map_congr_left fun s hs => by
      simp [readSeg, writeU32, Function.update_noteq (h3 s hs)]
  · rcases hk : b.clusterListRef with _ | rk
    · rfl
    · simp only [Option.map_some']
      simp [writeU32, Function.update_noteq (h2 rk (by simp [hk]))]
  · rcases hc : b.communitiesRef with _ | rc
    · rfl
    · simp only [Option.map_some']
      simp [writeU32, Function.update_noteq (h1 rc (by simp [hc]))]

lemma readPath_writeSegs (m : Mem) (b : BGPPathR) (a : Nat) (v : List SegR)
    (h : a ≠ b.asPathRef) :
    readPath (writeSegs m a v) b = readPath m b := by
  refine readPath_ext _ _ _ _ rfl ?_ rfl rfl rfl rfl rfl rfl
  show (Function.update m.segs a v b.asPathRef).map (readSeg (writeSegs m a v)) = _
  rw [Function.update_noteq (fun hh => h hh.symm)]
  rfl

lemma readPath_writeLcs (m : Mem) (b : BGPPathR) (a : Nat) (v : List LargeCommunity)
    (h : ∀ r ∈ b.largeCommunitiesRef, r ≠ a) :
    readPath (writeLcs m a v) b = readPath m b := by
  refine readPath_ext _ _ _ _ rfl rfl rfl rfl ?_ rfl rfl rfl
  rcases hl : b.largeCommunitiesRef with _ | rl
  · rfl
  · simp only [Option.map_some']
    simp [writeLcs, Function.update_noteq (h rl (by simp [hl]))]

lemma CopyR_readPath_orig (m : Mem) (b : BGPPathR) (hv : validR m b) :
    readPath (BGPPathR.Copy m b).1 b = readPath m b := by
  obtain ⟨hv1, hv2, hv3, hv4, hv5, hv6, hv7⟩ := hv
  refine readPath_ext _ _ _ _ ?_ ?_ ?_ ?_ ?_ ?_ rfl rfl
  · rw [CopyR_pas]
  · have hsegs : (BGPPathR.Copy m b).1.segs b.asPathRef = m.segs b.asPathRef := by
      rw [CopyR_segs, Function.update_noteq (by omega)]
    rw [hsegs]
    exact List.map_congr_left fun s hs => by
      simp [readSeg, CopyR_u32s_low m b s.asnsRef (hv7 s hs)]
  · rcases hk : b.clusterListRef with _ | rk
    · rfl
    · simp only [Option.map_some', CopyR_u32s_low m b rk (hv3 rk (by simp [hk]))]
  · rcases hc : b.communitiesRef with _ | rc
    · rfl
    · simp only [Option.map_some', CopyR_u32s_low m b rc (hv4 rc (by simp [hc]))]
  · rcases hl : b.largeCommunitiesRef with _ | rl
    · rfl
    · simp only [Option.map_some', CopyR_lcs_low m b rl (hv5 rl (by simp [hl]))]
  · rw [CopyR_uas]

lemma CopyR_readPath_copy (m : Mem) (b : BGPPathR) (hv : validR m b) :
    readPath (BGPPathR.Copy m b).1 (BGPPathR.Copy m b).2 = readPath m b := by
  obtain ⟨hv1, hv2, hv3, hv4, hv5, hv6, hv7⟩ := hv
  refine readPath_ext _ _ _ _ ?_ ?_ ?_ ?_ ?_ ?_ ?_ ?_
  · rw [CopyR_pas, CopyR_bgpPathARef]
  · rw [CopyR_asPathRef, CopyR_segs, Function.update_same]
    exact List.map_congr_left fun s hs => by
      simp [readSeg, CopyR_u32s_low m b s.asnsRef (hv7 s hs)]
  · rcases hk : b.clusterListRef with _ | rk
    · rw [CopyR_clRef_none m b hk]
      rfl
    · obtain ⟨r, hr1, hr2, hr3⟩ := CopyR_clCell m b rk hk (hv3 rk (by simp [hk]))
      rw [hr1]
      simp only [Option.map_some', hr3]
  · rcases hc : b.communitiesRef with _ | rc
    · rw [CopyR_commRef_none m b hc]
      rfl
    · obtain ⟨r, hr1, hr2, hr3⟩ := CopyR_commCell m b rc hc
      rw [hr1]
      simp only [Option.map_some', hr3]
  · rcases hl : b.largeCommunitiesRef with _ | rl
    · rw [CopyR_lcRef_none m b hl]
      rfl
    · obtain ⟨r, hr1, hr2, hr3⟩ := CopyR_lcCell m b rl hl
      rw [hr1]
      simp only [Option.map_some', hr3]
  · rw [CopyR_uas, CopyR_unknownRef]
  · exact (CopyR_id_len m b).1
  · exact (CopyR_id_len m b).2

lemma CopyR_commRef_high (m : Mem) (b : BGPPathR) :
    ∀ r ∈ (BGPPathR.Copy m b).2.communitiesRef, m.next ≤ r := by
  intro r hr
  rcases hc : b.communitiesRef with _ | rc
  · rw [CopyR_commRef_none m b hc] at hr
    simp at hr
  · obtain ⟨r2, hr1, hr2, hr3⟩ := CopyR_commCell m b rc hc
    rw [hr1] at hr
    simp at hr
    omega

lemma CopyR_lcRef_high (m : Mem) (b : BGPPathR) :
    ∀ r ∈ (BGPPathR.Copy m b).2.largeCommunitiesRef, m.next ≤ r := by
  intro r hr
  rcases hl : b.largeCommunitiesRef with _ | rl
  · rw [CopyR_lcRef_none m b hl] at hr
    simp at hr
  · obtain ⟨r2, hr1, hr2, hr3⟩ := CopyR_lcCell m b rl hl
    rw [hr1] at hr
    simp at hr
    omega

lemma CopyR_clRef_high (m : Mem) (b : BGPPathR) (hcl : ∀ r ∈ b.clusterListRef, r < m.next) :
    ∀ r ∈ (BGPPathR.Copy m b).2.clusterListRef, m.next ≤ r := by
  intro r hr
  rcases hk : b.clusterListRef with _ | rk
  · rw [CopyR_clRef_none m b hk] at hr
    simp at hr
  · obtain ⟨r2, hr1, hr2, hr3⟩ := CopyR_clCell m b rk hk (hcl rk (by simp [hk]))
    rw [hr1] at hr
    simp at hr
    omega

lemma CopyR_segs_at_orig (m : Mem) (b : BGPPathR) (hb : b.asPathRef < m.next) :
    (BGPPathR.Copy m b).1.segs b.asPathRef = m.segs b.asPathRef := by
  rw [CopyR_segs, Function.update_noteq (by omega)]

/-- Counterexample input for claim C7: a heap with an attribute-set
cell at 0, an AS-path cell at 1 whose single segment stores its ASNs
in cell 2, an unknown-attribute cell at 3 and a cluster-list cell at
4. -/
def mem0 : Mem :=
  { next := 5
    u32s := fun a => if a = 2 then [65001] else if a = 4 then [9] else []
    lcs := fun _ => []
    uas := fun a => if a = 3 then [{ attrTypeCode := 7, attrValue := [1], wireLength := 4 }]
      else []
    segs := fun a => if a = 1 then [{ segType := SegmentType.sequence, asnsRef := 2 }] else []
    pas := fun _ => paTie }

/-- The heap-resident path of the C7 counterexample. -/
def bR0 : BGPPathR :=
  { bgpPathARef := 0, asPathRef := 1, clusterListRef := some 4, communitiesRef := none,
    largeCommunitiesRef := none, unknownAttributesRef := some 3, pathIdentifier := 0,
    asPathLen := 1 }

/-- Counterexample for claim C7: `Copy` leaves the unknown-attributes
reference shared (first conjunct) and the copied segment records still
alias the original ASN cells (second conjunct), so overwriting the
unknown-attribute cell reachable from the copy, or an ASN cell
reachable from the copy's AS path, changes the observable value of the
ORIGINAL path - the copy is not a fully independent deep copy of every
per-path sequence. -/
theorem c7_counterexample :
    (BGPPathR.Copy mem0 bR0).2.unknownAttributesRef = bR0.unknownAttributesRef ∧
    (BGPPathR.Copy mem0 bR0).1.segs (BGPPathR.Copy mem0 bR0).2.asPathRef
      = mem0.segs bR0.asPathRef ∧
    readPath (writeUas (BGPPathR.Copy mem0 bR0).1 3 []) bR0
      ≠ readPath (BGPPathR.Copy mem0 bR0).1 bR0 ∧
    readPath (writeU32 (BGPPathR.Copy mem0 bR0).1 2 [64999]) bR0
      ≠ readPath (BGPPathR.Copy mem0 bR0).1 bR0 := by
  refine ⟨by decide, by decide, ?_, ?_⟩ <;> decide

/-- Claim C7 as amended: `Copy` keeps the Attribute Set reference AND
the unknown-attributes reference shared, and the fresh AS-path cell
holds the very same segment records (so the segments' ASN sequences
stay shared); the AS-path cell itself and the communities, large
communities and cluster-list cells are freshly allocated with contents
equal to the original's, the copy reads back equal to the original,
and overwriting any of those four freshly allocated cells of the copy
leaves the observable value of the original path unchanged. -/
theorem c7_copy_amended (m : Mem) (b : BGPPathR) (hv : validR m b) :
    (BGPPathR.Copy m b).2.bgpPathARef = b.bgpPathARef ∧
    (BGPPathR.Copy m b).2.unknownAttributesRef = b.unknownAttributesRef ∧
    (BGPPathR.Copy m b).1.segs (BGPPathR.Copy m b).2.asPathRef = m.segs b.asPathRef ∧
    readPath (BGPPathR.Copy m b).1 (BGPPathR.Copy m b).2 = readPath m b ∧
    readPath (BGPPathR.Copy m b).1 b = readPath m b ∧
    (∀ v, readPath (writeSegs (BGPPathR.Copy m b).1 (BGPPathR.Copy m b).2.asPathRef v) b
      = readPath (BGPPathR.Copy m b).1 b) ∧
    (∀ r ∈ (BGPPathR.Copy m b).2.communitiesRef, ∀ v,
      readPath (writeU32 (BGPPathR.Copy m b).1 r v) b = readPath (BGPPathR.Copy m b).1 b) ∧
    (∀ r ∈ (BGPPathR.Copy m b).2.largeCommunitiesRef, ∀ v,
      readPath (writeLcs (BGPPathR.Copy m b).1 r v) b = readPath (BGPPathR.Copy m b).1 b) ∧
    (∀ r ∈ (BGPPathR.Copy m b).2.clusterListRef, ∀ v,
      readPath (writeU32 (BGPPathR.Copy m b).1 r v) b = readPath (BGPPathR.Copy m b).1 b) := by
  obtain ⟨hv1, hv2, hv3, hv4, hv5, hv6, hv7⟩ := hv
  have hv' : validR m b := ⟨hv1, hv2, hv3, hv4, hv5, hv6, hv7⟩
  have hsegs := CopyR_segs_at_orig m b hv2
  refine ⟨CopyR_bgpPathARef m b, CopyR_unknownRef m b, ?_,
    CopyR_readPath_copy m b hv', CopyR_readPath_orig m b hv', ?_, ?_, ?_, ?_⟩
  · rw [CopyR_asPathRef, CopyR_segs, Function.update_same]
  · intro v
    apply readPath_writeSegs
    rw [CopyR_asPathRef]
    omega
  · intro r hr v
    have hhigh := CopyR_commRef_high m b r hr
    apply readPath_writeU32
    · intro r2 hr2
      have := hv4 r2 hr2
      omega
    · intro r2 hr2
      have := hv3 r2 hr2
      omega
    · intro s hs
      rw [hsegs] at hs
      have := hv7 s hs
      omega
  · intro r hr v
    have hhigh := CopyR_lcRef_high m b r hr
    apply readPath_writeLcs
    intro r2 hr2
    have := hv5 r2 hr2
    omega
  · intro r hr v
    have hhigh := CopyR_clRef_high m b hv3 r hr
    apply readPath_writeU32
    · intro r2 hr2
      have := hv4 r2 hr2
      omega
    · intro r2 hr2
      have := hv3 r2 hr2
      omega
    · intro s hs
      rw [hsegs] at hs
      have := hv7 s hs
      omega

/-- Witness for the amended C7, applying it at the concrete heap
`mem0` and path `bR0`. -/
theorem c7_witness :
    validR mem0 bR0 ∧
    ((BGPPathR.Copy mem0 bR0).2.bgpPathARef = bR0.bgpPathARef ∧
    (BGPPathR.Copy mem0 bR0).2.unknownAttributesRef = bR0.unknownAttributesRef ∧
    (BGPPathR.Copy mem0 bR0).1.segs (BGPPathR.Copy mem0 bR0).2.asPathRef
      = mem0.segs bR0.asPathRef ∧
    readPath (BGPPathR.Copy mem0 bR0).1 (BGPPathR.Copy mem0 bR0).2 = readPath mem0 bR0 ∧
    readPath (BGPPathR.Copy mem0 bR0).1 bR0 = readPath mem0 bR0 ∧
    (∀ v, readPath (writeSegs (BGPPathR.Copy mem0 bR0).1
        (BGPPathR.Copy mem0 bR0).2.asPathRef v) bR0
      = readPath (BGPPathR.Copy mem0 bR0).1 bR0) ∧
    (∀ r ∈ (BGPPathR.Copy mem0 bR0).2.communitiesRef, ∀ v,
      readPath (writeU32 (BGPPathR.Copy mem0 bR0).1 r v) bR0
        = readPath (BGPPathR.Copy mem0 bR0).1 bR0) ∧
    (∀ r ∈ (BGPPathR.Copy mem0 bR0).2.largeCommunitiesRef, ∀ v,
      readPath (writeLcs (BGPPathR.Copy mem0 bR0).1 r v) bR0
        = readPath (BGPPathR.Copy mem0 bR0).1 bR0) ∧
    (∀ r ∈ (BGPPathR.Copy mem0 bR0).2.clusterListRef, ∀ v,
      readPath (writeU32 (BGPPathR.Copy mem0 bR0).1 r v) bR0
        = readPath (BGPPathR.Copy mem0 bR0).1 bR0)) :=
  ⟨by unfold validR; decide, c7_copy_amended mem0 bR0 (by unfold validR; decide)⟩
